import Mathlib

set_option maxRecDepth 8000

/-!
Shallow embedding of the dataset-preparation component of the car-pricing
ML repository (src/src/data/dataset.py, src/src/utils/utilities.py,
src/src/config.py), together with theorems settling the frozen claims.

Conventions of the embedding:
* pandas DataFrames become `DF`: an ordered column list plus rows, each row an
  association list from column name to `Value`.
* Python runtime values become `Value` (strings, ints, floats-as-rationals,
  booleans).  Float arithmetic in the source is plain real arithmetic on small
  decimal numbers; it is embedded as exact rational arithmetic.
* Fallible Python code (raising ValueError / TypeError / KeyError /
  IndexError / ZeroDivisionError) becomes `Except PrepError`.
* Text processing (str.replace, int(), float(), substring tests) is embedded
  on character lists with structurally recursive, kernel-evaluable functions.
-/

namespace CarPricing

/-- The Python exceptions the pipeline can raise, by kind. -/
inductive PrepError where
  | valueError (msg : String)
  | typeError (msg : String)
  | keyError (feature : String)
  | indexError
  | zeroDivision
  deriving DecidableEq, Repr

/-- A Python runtime value as it appears in a dataframe cell. -/
inductive Value where
  | str (s : String)
  | int (n : Int)
  | float (q : ℚ)
  | bool (b : Bool)
  deriving DecidableEq, Repr

/-- Numeric view of a value, as used by Python comparison operators:
ints and floats are numbers, `True`/`False` count as 1/0, strings do not
compare with numbers (a `TypeError` at the call sites). -/
def Value.toNum : Value → Option ℚ
  | Value.int n => some (n : ℚ)
  | Value.float q => some q
  | Value.bool b => some (if b then 1 else 0)
  | Value.str _ => none

/-- `str(value)` for the values the pipeline renders into messages and
string-typed cells.  (Float rendering is simplified: the pipeline theorems
never depend on the decimal rendering of a non-integral float.) -/
def Value.pyStr : Value → String
  | Value.str s => s
  | Value.int n => toString n
  | Value.float q => if q.den = 1 then toString q.num ++ ".0" else toString q
  | Value.bool b => if b then "True" else "False"

/-- One dataframe row: ordered bindings from column name to value. -/
abbrev Row := List (String × Value)

/-- A pandas DataFrame: ordered column names and the list of rows. -/
structure DF where
  cols : List String
  rows : List Row
  deriving DecidableEq, Repr

/-- `row[feature]`: first binding for the column name. -/
def lookupV (r : Row) (f : String) : Option Value :=
  List.lookup f r

/-- Functional update of one binding of a row (append if absent), keeping
the binding order, as pandas column assignment keeps column order. -/
def setV (r : Row) (f : String) (v : Value) : Row :=
  if r.any (fun p => p.1 == f) then r.map (fun p => if p.1 == f then (f, v) else p)
  else r ++ [(f, v)]

/-- `df[feature]`: the column as a list of values; `KeyError` when the
column is absent. -/
def getCol (df : DF) (f : String) : Except PrepError (List Value) :=
  if df.cols.contains f then
    df.rows.mapM (fun r =>
      match lookupV r f with
      | some v => Except.ok v
      | none => Except.error (PrepError.keyError f))
  else Except.error (PrepError.keyError f)

/-- `df[feature] = column`: replace (or append) a whole column. -/
def setCol (df : DF) (f : String) (vals : List Value) : DF :=
  { cols := if df.cols.contains f then df.cols else df.cols ++ [f]
    rows := df.rows.enum.map (fun p => setV p.2 f (vals.getD p.1 (Value.int 0))) }

/-- `df.drop(outliers.index).reset_index(drop=True)`: remove the rows whose
position is in `idxs`. -/
def dropRows (df : DF) (idxs : List Nat) : DF :=
  { cols := df.cols
    rows := (df.rows.enum.filter (fun p => !(idxs.contains p.1))).map (fun p => p.2) }

/-! ### Text processing and numeric parsing (Python `str.replace`, `int`, `float`) -/

/-- Does the character list start with the pattern? -/
def startsWithCs : List Char → List Char → Bool
  | _, [] => true
  | [], _ :: _ => false
  | c :: cs, d :: ds => c == d && startsWithCs cs ds

/-- Substring test, Python `pat in s`. -/
def containsCs (hay pat : List Char) : Bool :=
  match hay with
  | [] => startsWithCs [] pat
  | _ :: t => startsWithCs hay pat || containsCs t pat

/-- Fuel-driven core of `str.replace(pat, repl)` (replace all occurrences,
scanning left to right); the fuel is an upper bound on the text length, so
the function is structurally recursive and kernel-evaluable. -/
def replaceGo (pat repl : List Char) : Nat → List Char → List Char
  | _, [] => []
  | 0, hay => hay
  | Nat.succ fuel, c :: t =>
    if !pat.isEmpty && startsWithCs (c :: t) pat then
      repl ++ replaceGo pat repl fuel (t.drop (pat.length - 1))
    else c :: replaceGo pat repl fuel t

/-- Python `s.replace(old, new)`. -/
def pyReplace (s old new : String) : String :=
  String.mk (replaceGo old.toList new.toList s.toList.length s.toList)

/-- ASCII whitespace for `int(...)` / `float(...)` argument stripping. -/
def isSpaceCh (c : Char) : Bool :=
  c == ' ' || c == '\t' || c == '\n' || c == '\r'

/-- Strip leading and trailing whitespace. -/
def trimCs (cs : List Char) : List Char :=
  ((cs.dropWhile isSpaceCh).reverse.dropWhile isSpaceCh).reverse

/-- Value of a digit string. -/
def digitsToNat (cs : List Char) : Nat :=
  cs.foldl (fun a c => a * 10 + (c.toNat - 48)) 0

/-- Split an optional leading sign off a character list, returning the sign
as a factor. -/
def splitSign (cs : List Char) : Int × List Char :=
  match cs with
  | c :: rest => if c == '-' then (-1, rest) else if c == '+' then ((1 : Int), rest) else (1, cs)
  | [] => (1, cs)

/-- Python `int(s)` for base-10 literals: optional surrounding whitespace,
optional sign, then at least one digit; otherwise `ValueError`. -/
def pyInt (s : String) : Except PrepError Int :=
  let sd := splitSign (trimCs s.toList)
  if !sd.2.isEmpty && sd.2.all Char.isDigit then
    Except.ok (sd.1 * (digitsToNat sd.2 : Int))
  else Except.error (PrepError.valueError ("invalid literal for int with base 10: " ++ s))

/-- Split a character list at every dot. -/
def splitDot : List Char → List (List Char)
  | [] => [[]]
  | c :: t =>
    let r := splitDot t
    if c == '.' then [] :: r
    else
      match r with
      | h :: t2 => (c :: h) :: t2
      | [] => [[c]]

/-- Python `float(s)` for plain decimal literals: optional surrounding
whitespace, optional sign, digits with at most one dot and at least one digit;
otherwise `ValueError`.  (Exponent and inf/nan forms never occur in this
pipeline's data and are not modelled.) -/
def pyFloat (s : String) : Except PrepError ℚ :=
  let sd := splitSign (trimCs s.toList)
  let bad : Except PrepError ℚ :=
    Except.error (PrepError.valueError ("could not convert string to float: " ++ s))
  match splitDot sd.2 with
  | [ip] =>
    if !ip.isEmpty && ip.all Char.isDigit then Except.ok ((sd.1 : ℚ) * (digitsToNat ip : ℚ))
    else bad
  | [ip, fp] =>
    if !(ip ++ fp).isEmpty && (ip ++ fp).all Char.isDigit then
      Except.ok ((sd.1 : ℚ) * ((digitsToNat ip : ℚ) + (digitsToNat fp : ℚ) / ((10 : ℚ) ^ fp.length)))
    else bad
  | _ => bad

/-! ### Percentile, rounding and the outlier detectors
(src/src/utils/utilities.py, `UtilityManager.Data`) -/

/-- Insert into an ascending-sorted list. -/
def insertAsc (x : ℚ) : List ℚ → List ℚ
  | [] => [x]
  | y :: ys => if x ≤ y then x :: y :: ys else y :: insertAsc x ys

/-- Ascending insertion sort (the sorted order pandas quantile works on). -/
def sortAsc (xs : List ℚ) : List ℚ :=
  xs.foldr insertAsc []

/-- `round(x)` as Python rounds floats: to the nearest integer, ties to the
nearest even integer. -/
def pyRound (q : ℚ) : Int :=
  let f : Int := ⌊q⌋
  let r : ℚ := q - (f : ℚ)
  if r < 1/2 then f
  else if 1/2 < r then f + 1
  else if f % 2 = 0 then f else f + 1

/-- `Series.quantile(q)` with pandas' default linear interpolation: with the
values sorted ascending and `pos = q * (n - 1)`, interpolate between the
neighbouring order statistics. -/
def quantile (xs : List ℚ) (q : ℚ) : ℚ :=
  let s := sortAsc xs
  let pos : ℚ := q * ((s.length : ℚ) - 1)
  let lo : Int := ⌊pos⌋
  let x0 := s.getD lo.toNat 0
  let x1 := s.getD (lo.toNat + 1) x0
  x0 + (pos - (lo : ℚ)) * (x1 - x0)

/-- Numeric view of a cell for the comparisons in the outlier mask; a string
cell raises `TypeError` exactly as Python's `<` does on str vs number. -/
def toNumE (v : Value) : Except PrepError ℚ :=
  match Value.toNum v with
  | some q => Except.ok q
  | none => Except.error (PrepError.typeError "comparison not supported between str and number")

/-- `UtilityManager.Data.find_outliers_numeric`, returning the positions of
the flagged rows.  Q1 and Q3 are the 25th/75th percentiles, each passed
through `int(round(.))` before the IQR is formed; the bounds are
`Q1 - k*IQR` and `Q3 + k*IQR`, clamped into `[min_value, max_value]`; a row
is flagged iff its value is strictly outside the clamped bounds.  An empty
column makes `int(round(NaN))` raise `ValueError` in the source, embedded as
the explicit empty guard. -/
def find_outliers_numeric (df : DF) (feature : String)
    (iqr_threshold min_value max_value : ℚ) : Except PrepError (List Nat) := do
  let vals ← getCol df feature
  let nums ← vals.mapM toNumE
  if nums.isEmpty then
    Except.error (PrepError.valueError "cannot convert float NaN to integer")
  else
    let q25 : Int := pyRound (quantile nums (1/4))
    let q75 : Int := pyRound (quantile nums (3/4))
    let iqr_value : Int := q75 - q25
    let lb : ℚ := (q25 : ℚ) - iqr_threshold * (iqr_value : ℚ)
    let lower_bound := if lb < min_value then min_value else lb
    let ub : ℚ := (q75 : ℚ) + iqr_threshold * (iqr_value : ℚ)
    let upper_bound := if max_value < ub then max_value else ub
    Except.ok ((List.range nums.length).filter
      (fun i => decide (nums.getD i 0 < lower_bound) || decide (upper_bound < nums.getD i 0)))

/-- `Series.value_counts()`: each distinct value with its occurrence count. -/
def value_counts (vals : List Value) : List (Value × Nat) :=
  vals.dedup.map (fun v => (v, vals.count v))

/-- `UtilityManager.Data.find_outliers_categorical`, returning the positions
of the flagged rows: rows whose value occurs at most `min_freq` times.  The
outlier-percentage diagnostic divides by the row count, so an empty
dataframe raises `ZeroDivisionError`. -/
def find_outliers_categorical (df : DF) (feature : String) (min_freq : Nat) :
    Except PrepError (List Nat) := do
  let vals ← getCol df feature
  let counts := value_counts vals
  let lowVals := (counts.filter (fun p => decide (p.2 ≤ min_freq))).map (fun p => p.1)
  let outliers := (List.range vals.length).filter
    (fun i => lowVals.contains (vals.getD i (Value.int 0)))
  if vals.length = 0 then Except.error PrepError.zeroDivision
  else Except.ok outliers

/-! ### Feature schema (`Def.Data.VALIDATOR`) and value validation
(src/src/utils/utilities.py, `UtilityManager.Data.Validator`; src/src/config.py) -/

/-- One schema entry of the validator file: a type tag, the allowed values
(categorical) and the numeric domain (numerical). -/
structure FeatureInfo where
  type : String
  values : List String
  min : ℚ
  max : ℚ
  deriving DecidableEq, Repr

/-- The schema: ordered feature name to entry mapping, mirroring the JSON
object's key order. -/
abbrev Validator := List (String × FeatureInfo)

/-- Python `value in allowed` where `allowed` is a list of strings: a
non-string value is simply not equal to any element. -/
def pyMemStr (v : Value) (ss : List String) : Bool :=
  match v with
  | Value.str s => ss.contains s
  | _ => false

/-- `UtilityManager.Data.Validator.validate_feature_value`: `ValueError` when
the feature has no schema entry; a categorical value is valid iff it is one of
the allowed values; a numerical value is valid iff `min ≤ value ≤ max`
(`TypeError` when the value is a string, as in Python); any other type tag
(in particular `logical`) falls into the final `else` and is judged invalid. -/
def validate_feature_value (validator : Validator) (feature : String) (value : Value) :
    Except PrepError Bool :=
  match List.lookup feature validator with
  | none => Except.error (PrepError.valueError ("Feature " ++ feature ++ " is not valid"))
  | some info =>
    if info.type = "categorical" then Except.ok (pyMemStr value info.values)
    else if info.type = "numerical" then
      match Value.toNum value with
      | some q => Except.ok (decide (info.min ≤ q) && decide (q ≤ info.max))
      | none => Except.error (PrepError.typeError "comparison not supported between str and number")
    else Except.ok false

/-- Modelled from the spec: the persisted schema file `validator.json`
(loaded by src/src/config.py as `Def.Data.VALIDATOR`) is not under src/, so
its content is reconstructed from spec §3, §6 and the §8 end-to-end scenario:
one entry per pipeline feature, `categorical` entries with their allowed
values (containing the scenario's values and not containing "Spaceship"),
`numerical` entries with their `[min, max]` domain (containing the scenario's
numbers), the derived `isTurbo` categorical over {Yes, No}, the logical
`Leather interior`, and the target `Price`.  The concrete allowed-value lists
and numeric bounds are representative; no theorem depends on more of them
than the scenario constraints just listed. -/
def VALIDATOR : Validator :=
  [("Manufacturer", FeatureInfo.mk "categorical" ["Toyota", "BMW", "Mercedes"] 0 0),
   ("Model", FeatureInfo.mk "categorical" ["Camry", "Corolla", "X5"] 0 0),
   ("Prod. year", FeatureInfo.mk "numerical" [] 1900 2030),
   ("Category", FeatureInfo.mk "categorical" ["Sedan", "Jeep", "Hatchback"] 0 0),
   ("Mileage", FeatureInfo.mk "numerical" [] 0 1000000),
   ("Fuel type", FeatureInfo.mk "categorical" ["Petrol", "Diesel", "Hybrid"] 0 0),
   ("Engine volume", FeatureInfo.mk "numerical" [] 0 10),
   ("Cylinders", FeatureInfo.mk "numerical" [] 1 16),
   ("Gear box type", FeatureInfo.mk "categorical" ["Automatic", "Manual", "Tiptronic"] 0 0),
   ("Drive wheels", FeatureInfo.mk "categorical" ["Front", "Rear", "4x4"] 0 0),
   ("Wheel", FeatureInfo.mk "categorical" ["Left wheel", "Right-hand drive"] 0 0),
   ("Color", FeatureInfo.mk "categorical" ["White", "Black", "Silver"] 0 0),
   ("Airbags", FeatureInfo.mk "numerical" [] 0 16),
   ("Leather interior", FeatureInfo.mk "logical" [] 0 0),
   ("isTurbo", FeatureInfo.mk "categorical" ["Yes", "No"] 0 0),
   ("Price", FeatureInfo.mk "numerical" [] 0 1000000)]

/-! ### Outlier-elimination parameters (src/src/config.py, `Def.Data.Param`) -/

def MIN_FREQ_MAKE : Nat := 5
def MIN_FREQ_MODEL : Nat := 3
def MIN_FREQ_BODY_CATEGORY : Nat := 10
def IQR_THRESHOLD_PROD_YEAR : ℚ := 7
def IQR_THRESHOLD_MILEAGE : ℚ := 3
def IQR_THRESHOLD_PRICE : ℚ := 15/2

/-- `Def.Env.SEED` (src/src/config.py). -/
def SEED : Nat := 21

/-! ### The dataset preparation pipeline (src/src/data/dataset.py,
`DatasetManager`).  The manager's mutable `self.df` becomes explicit
dataframe passing; `self.is_inference` and `self.target` become parameters;
the schema global becomes the `validator` parameter. -/

/-- `DatasetManager.add_features`: derive `isTurbo` from the raw
engine-volume text by the "Turbo" substring test; a non-string cell makes
Python's `in` raise `TypeError`. -/
def add_features (df : DF) : Except PrepError DF := do
  let vals ← getCol df "Engine volume"
  let flags ← vals.mapM (fun v =>
    match v with
    | Value.str s =>
      Except.ok (Value.str (if containsCs s.toList "Turbo".toList then "Yes" else "No"))
    | _ => Except.error (PrepError.typeError "argument is not iterable"))
  Except.ok (setCol df "isTurbo" flags)

/-- Mileage normalization: strip the " km" unit text and parse as integer. -/
def parseMileage (v : Value) : Except PrepError Value :=
  match v with
  | Value.str s => (pyInt (pyReplace s " km" "")).map Value.int
  | _ => Except.error (PrepError.typeError "str accessor requires string values")

/-- Engine-volume normalization: strip the " Turbo" marker and parse as float. -/
def parseEngineVolume (v : Value) : Except PrepError Value :=
  match v with
  | Value.str s => (pyFloat (pyReplace s " Turbo" "")).map Value.float
  | _ => Except.error (PrepError.typeError "str accessor requires string values")

/-- `DatasetManager.preprocess`: normalize the Mileage column, then the
Engine volume column. -/
def preprocess (df : DF) : Except PrepError DF := do
  let m ← getCol df "Mileage"
  let m2 ← m.mapM parseMileage
  let df2 := setCol df "Mileage" m2
  let e ← getCol df2 "Engine volume"
  let e2 ← e.mapM parseEngineVolume
  Except.ok (setCol df2 "Engine volume" e2)

/-- One categorical cleaning step: find the outliers and drop them. -/
def cleanStepCat (df : DF) (feature : String) (min_freq : Nat) : Except PrepError DF := do
  let idxs ← find_outliers_categorical df feature min_freq
  Except.ok (dropRows df idxs)

/-- One numerical cleaning step: bounds come from the schema entry of the
feature (`KeyError` when the schema lacks it), outliers are dropped. -/
def cleanStepNum (validator : Validator) (df : DF) (feature : String) (k : ℚ) :
    Except PrepError DF :=
  match List.lookup feature validator with
  | none => Except.error (PrepError.keyError feature)
  | some info => do
    let idxs ← find_outliers_numeric df feature k info.min info.max
    Except.ok (dropRows df idxs)

/-- `DatasetManager.clean_data`: the six outlier-elimination steps in source
order, each dropping its flagged rows before the next runs. -/
def clean_data (validator : Validator) (df : DF) : Except PrepError DF := do
  let df1 ← cleanStepCat df "Manufacturer" MIN_FREQ_MAKE
  let df2 ← cleanStepCat df1 "Model" MIN_FREQ_MODEL
  let df3 ← cleanStepNum validator df2 "Prod. year" IQR_THRESHOLD_PROD_YEAR
  let df4 ← cleanStepCat df3 "Category" MIN_FREQ_BODY_CATEGORY
  let df5 ← cleanStepNum validator df4 "Mileage" IQR_THRESHOLD_MILEAGE
  let df6 ← cleanStepNum validator df5 "Price" IQR_THRESHOLD_PRICE
  Except.ok df6

/-- One outlier-elimination step as the spec's §4.3 parameter table lists it. -/
inductive OutlierStep where
  | cat (feature : String) (min_freq : Nat)
  | num (feature : String) (k : ℚ)
  deriving DecidableEq, Repr

/-- Apply one step of the parameter table. -/
def applyStep (validator : Validator) (df : DF) : OutlierStep → Except PrepError DF
  | OutlierStep.cat f m => cleanStepCat df f m
  | OutlierStep.num f k => cleanStepNum validator df f k

/-- The spec's §4.3 ordered parameter table: manufacturer, model,
production-year, body-category, mileage, price with their thresholds. -/
def cleanSteps : List OutlierStep :=
  [OutlierStep.cat "Manufacturer" 5,
   OutlierStep.cat "Model" 3,
   OutlierStep.num "Prod. year" 7,
   OutlierStep.cat "Category" 10,
   OutlierStep.num "Mileage" 3,
   OutlierStep.num "Price" (15/2)]

/-- The source's message for a wrong inference row count. -/
def oneRowMsg : String :=
  "The instance should contain exactly one row for validation during the inference"

/-- The source's `ValueError` message naming the offending feature and value
(the source wraps both in single quotes; the quoting is not reproduced). -/
def invalidValueMsg (feature : String) (v : Value) : String :=
  "Invalid value " ++ Value.pyStr v ++ " for feature " ++ feature

/-- The per-column loop of `DatasetManager.validate_data`: for each column,
read the first row's value and judge it; stop with `ValueError` at the first
invalid value, propagate the first exception a judgement raises. -/
def validateCols (validator : Validator) (r0 : Row) : List String → Except PrepError Unit
  | [] => Except.ok ()
  | f :: rest =>
    match lookupV r0 f with
    | none => Except.error (PrepError.keyError f)
    | some v =>
      match validate_feature_value validator f v with
      | Except.error e => Except.error e
      | Except.ok b =>
        if b then validateCols validator r0 rest
        else Except.error (PrepError.valueError (invalidValueMsg f v))

/-- `DatasetManager.validate_data`: in inference mode the dataframe must have
exactly one row; then every column's first-row value is validated in column
order.  `iloc[0]` on a rowless dataframe with columns raises `IndexError`. -/
def validate_data (validator : Validator) (is_inference : Bool) (df : DF) :
    Except PrepError Unit :=
  if is_inference && decide (df.rows.length ≠ 1) then
    Except.error (PrepError.valueError oneRowMsg)
  else
    match df.cols with
    | [] => Except.ok ()
    | cols =>
      match df.rows.head? with
      | none => Except.error PrepError.indexError
      | some r0 => validateCols validator r0 cols

/-- `DatasetManager.select_features`: project onto the schema's feature list
in schema order; in inference mode the target column is removed from the
list first.  Any selected column missing from the dataframe is a `KeyError`. -/
def select_features (validator : Validator) (target : String) (is_inference : Bool)
    (df : DF) : Except PrepError DF :=
  let features0 := validator.map (fun p => p.1)
  let features :=
    if is_inference && features0.contains target then features0.erase target else features0
  if features.all (fun f => df.cols.contains f) then do
    let rows ← df.rows.mapM (fun r => features.mapM (fun f =>
      match lookupV r f with
      | some v => Except.ok ((f, v) : String × Value)
      | none => Except.error (PrepError.keyError f)))
    Except.ok (DF.mk features rows)
  else Except.error (PrepError.keyError "selected feature missing from dataframe")

/-- `astype(float)` on one cell: numbers and booleans convert, strings are
parsed as decimal literals, anything unparsable is a `ValueError`. -/
def coerceFloat (v : Value) : Except PrepError Value :=
  match v with
  | Value.int n => Except.ok (Value.float (n : ℚ))
  | Value.float q => Except.ok (Value.float q)
  | Value.bool b => Except.ok (Value.float (if b then 1 else 0))
  | Value.str s => (pyFloat s).map Value.float

/-- `df[feature] = df[feature].astype(float)`. -/
def coerceColFloat (df : DF) (f : String) : Except PrepError DF := do
  let vals ← getCol df f
  let vals2 ← vals.mapM coerceFloat
  Except.ok (setCol df f vals2)

/-- `df[feature] = df[feature].astype(str)`. -/
def coerceColStr (df : DF) (f : String) : Except PrepError DF := do
  let vals ← getCol df f
  Except.ok (setCol df f (vals.map (fun v => Value.str (Value.pyStr v))))

/-- `DatasetManager.set_types`: numerical features to float (the target is
skipped in inference mode), then categorical features to string, then logical
features to string. -/
def set_types (validator : Validator) (target : String) (is_inference : Bool)
    (df : DF) : Except PrepError DF := do
  let numerical := (validator.filter (fun p => p.2.type == "numerical")).map (fun p => p.1)
  let categorical := (validator.filter (fun p => p.2.type == "categorical")).map (fun p => p.1)
  let logical := (validator.filter (fun p => p.2.type == "logical")).map (fun p => p.1)
  let dfN ← numerical.foldlM (fun d f =>
    if is_inference && (f == target) then Except.ok d else coerceColFloat d f) df
  let dfC ← categorical.foldlM (fun d f => coerceColStr d f) dfN
  let dfL ← logical.foldlM (fun d f => coerceColStr d f) dfC
  Except.ok dfL

/-- `DatasetManager.execute_preparation` on a loaded dataframe: in inference
mode only validation runs; in training mode feature derivation, text
normalization and outlier elimination run; both modes then share feature
selection and type coercion.  (The `to_save` persistence pass-through is
outside the data model.) -/
def execute_preparation (validator : Validator) (target : String) (is_inference : Bool)
    (df : DF) : Except PrepError DF := do
  let df1 ←
    if is_inference then do
      let _ ← validate_data validator is_inference df
      Except.ok df
    else do
      let dfA ← add_features df
      let dfB ← preprocess dfA
      clean_data validator dfB
  let df2 ← select_features validator target is_inference df1
  set_types validator target is_inference df2

/-! ### Train/test split (src/src/data/dataset.py, `DatasetManager.split`).

Modelled from the spec: `split` delegates to sklearn's `train_test_split`
(an external collaborator, not code of this repository), with
`random_state = Def.Env.SEED`.  Spec §4.4 fixes the contract: a seeded
deterministic pseudo-random row shuffle partitions the rows into a test part
of about `test_size` of the rows and the remaining train part, failing with
`ValueError` when `test_size` is not in (0,1) or the dataset has fewer than
2 rows.  The shuffle is realized by an explicit linear-congruential
Fisher-Yates draw; determinism for a fixed seed and input order holds by
construction (the embedding is a pure function of `(df, test_size, seed)`). -/

/-- One step of the linear congruential generator driving the shuffle. -/
def lcgNext (s : Nat) : Nat := (1103515245 * s + 12345) % 2147483648

/-- Fuel-driven Fisher-Yates draw: repeatedly pick one remaining element. -/
def shuffleGo : Nat → Nat → List Nat → List Nat
  | 0, _, _ => []
  | Nat.succ _, _, [] => []
  | Nat.succ fuel, s, x :: t =>
    let ys := x :: t
    let y := ys.getD (s % ys.length) 0
    y :: shuffleGo fuel (lcgNext s) (ys.erase y)

/-- Seeded deterministic permutation of a list of row indices. -/
def shuffleIdx (seed : Nat) (xs : List Nat) : List Nat :=
  shuffleGo xs.length seed xs

/-- The (test, train) index partition: the first `n_test` positions of the
seeded permutation of `0..n-1` are the test rows, the rest the train rows. -/
def splitIndices (seed n n_test : Nat) : List Nat × List Nat :=
  let perm := shuffleIdx seed (List.range n)
  (perm.take n_test, perm.drop n_test)

/-- `DatasetManager.split` (see the modelling note above): validates the
fraction and the row count, draws the seeded permutation, and returns the
`(train, test)` dataframes. -/
def train_test_split (df : DF) (test_size : ℚ) (seed : Nat) :
    Except PrepError (DF × DF) :=
  if test_size ≤ 0 ∨ 1 ≤ test_size then
    Except.error (PrepError.valueError "test_size should be in the (0, 1) range")
  else if df.rows.length < 2 then
    Except.error (PrepError.valueError "the dataset must contain at least 2 rows to be split")
  else
    let n := df.rows.length
    let n_test := min (n - 1) (max 1 (⌈test_size * (n : ℚ)⌉.toNat))
    let p := splitIndices seed n n_test
    Except.ok (DF.mk df.cols (p.2.map (fun i => df.rows.getD i [])),
               DF.mk df.cols (p.1.map (fun i => df.rows.getD i [])))

/-! ### Spec-side characterizations used by the claims -/

/-- Q1 of the claim: the 25th percentile rounded to the nearest integer. -/
def roundedQ1 (nums : List ℚ) : Int := pyRound (quantile nums (1/4))

/-- Q3 of the claim: the 75th percentile rounded to the nearest integer. -/
def roundedQ3 (nums : List ℚ) : Int := pyRound (quantile nums (3/4))

/-- The claim's lower bound `max(Q1 - k*IQR, domain_min)`. -/
def specLowerBound (nums : List ℚ) (k mn : ℚ) : ℚ :=
  max ((roundedQ1 nums : ℚ) - k * ((roundedQ3 nums - roundedQ1 nums : Int) : ℚ)) mn

/-- The claim's upper bound `min(Q3 + k*IQR, domain_max)`. -/
def specUpperBound (nums : List ℚ) (k mx : ℚ) : ℚ :=
  min ((roundedQ3 nums : ℚ) + k * ((roundedQ3 nums - roundedQ1 nums : Int) : ℚ)) mx

/-- The claim's outlier set: exactly the row positions whose value is
strictly outside the clamped bounds. -/
def numericOutlierSpec (nums : List ℚ) (k mn mx : ℚ) : List Nat :=
  (List.range nums.length).filter (fun i =>
    decide (nums.getD i 0 < specLowerBound nums k mn) ||
    decide (specUpperBound nums k mx < nums.getD i 0))

/-- The first column of the list whose (existing, judgeable) value is judged
invalid, together with that value: the violation eager validation stops at. -/
def firstInvalid (validator : Validator) (r0 : Row) : List String → Option (String × Value)
  | [] => none
  | f :: rest =>
    match lookupV r0 f with
    | none => none
    | some v =>
      match validate_feature_value validator f v with
      | Except.ok false => some (f, v)
      | Except.ok true => firstInvalid validator r0 rest
      | Except.error _ => none

/-! ### Concrete data for the claims' evaluations and witnesses -/

/-- The §8 end-to-end inference scenario row, raw, in the spec's field order. -/
def scenarioRow : Row :=
  [("Manufacturer", Value.str "Toyota"), ("Model", Value.str "Camry"),
   ("Prod. year", Value.int 2018), ("Category", Value.str "Sedan"),
   ("Mileage", Value.str "80000 km"), ("Fuel type", Value.str "Petrol"),
   ("Engine volume", Value.str "2.5 Turbo"), ("Cylinders", Value.int 4),
   ("Gear box type", Value.str "Automatic"), ("Drive wheels", Value.str "Front"),
   ("Wheel", Value.str "Left wheel"), ("Color", Value.str "White"),
   ("Airbags", Value.int 6), ("Leather interior", Value.bool true)]

/-- The single-row inference dataframe of the §8 scenario. -/
def scenarioDF : DF := DF.mk (scenarioRow.map (fun p => p.1)) [scenarioRow]

/-- The raw training column set: the scenario columns plus the target. -/
def rawCols : List String := scenarioRow.map (fun p => p.1) ++ ["Price"]

/-- A rowless training dataframe with the raw columns. -/
def emptyTrainDF : DF := DF.mk rawCols []

/-- A two-row inference input (one row too many). -/
def twoRowDF : DF := DF.mk (scenarioRow.map (fun p => p.1)) [scenarioRow, scenarioRow]

/-- Column of categorical values where value "a" occurs exactly twice. -/
def catCexVals : List Value :=
  [Value.str "a", Value.str "a", Value.str "b", Value.str "b", Value.str "b"]

/-- One-column dataframe over `catCexVals`. -/
def catCexDF : DF := DF.mk ["c"] (catCexVals.map (fun v => [("c", v)]))

/-- Column for the C2 witness: "x" once, "y" three times. -/
def catWitVals : List Value :=
  [Value.str "x", Value.str "y", Value.str "y", Value.str "y"]

/-- One-column dataframe over `catWitVals`. -/
def catWitDF : DF := DF.mk ["c"] (catWitVals.map (fun v => [("c", v)]))

/-- Numeric column for the C3 witness. -/
def numWitVals : List ℚ := [10, 12, 13, 14, 15, 16, 18, 500]

/-- One-column dataframe over `numWitVals`. -/
def numWitDF : DF := DF.mk ["n"] (numWitVals.map (fun q => [("n", Value.float q)]))

/-- One already-prepared, fully typed row: the training pipeline's own output
on the scenario row (target included), as produced by `execute_preparation`. -/
def preparedRow : Row :=
  [("Manufacturer", Value.str "Toyota"), ("Model", Value.str "Camry"),
   ("Prod. year", Value.float 2018), ("Category", Value.str "Sedan"),
   ("Mileage", Value.float 80000), ("Fuel type", Value.str "Petrol"),
   ("Engine volume", Value.float (5/2)), ("Cylinders", Value.float 4),
   ("Gear box type", Value.str "Automatic"), ("Drive wheels", Value.str "Front"),
   ("Wheel", Value.str "Left wheel"), ("Color", Value.str "White"),
   ("Airbags", Value.float 6), ("Leather interior", Value.str "True"),
   ("isTurbo", Value.str "Yes"), ("Price", Value.float 10000)]

/-- A one-row subset of prepared training output. -/
def preparedDF : DF := DF.mk (VALIDATOR.map (fun p => p.1)) [preparedRow]

/-- Raw training row matching the scenario, with a target value. -/
def trainRow : Row := scenarioRow ++ [("Price", Value.int 10000)]

/-- A cleaned-format dataframe for the C6 witness: 12 identical rows whose
categorical values are frequent enough and whose numeric values are inliers. -/
def cleanWitDF : DF :=
  DF.mk ["Manufacturer", "Model", "Prod. year", "Category", "Mileage", "Price"]
    (List.replicate 12
      [("Manufacturer", Value.str "Toyota"), ("Model", Value.str "Camry"),
       ("Prod. year", Value.int 2018), ("Category", Value.str "Sedan"),
       ("Mileage", Value.int 80000), ("Price", Value.int 10000)])

/-- A minimal schema with a single categorical feature, used to exhibit a
succeeding inference run. -/
def tinyValidator : Validator :=
  [("Color", FeatureInfo.mk "categorical" ["White", "Black"] 0 0)]

/-- A single-row dataframe over `tinyValidator`. -/
def tinyDF : DF := DF.mk ["Color"] [[("Color", Value.str "White")]]

/-- A single-row dataframe with an out-of-domain value for `tinyValidator`. -/
def tinyBadDF : DF := DF.mk ["Color"] [[("Color", Value.str "Green")]]

/-- A minimal schema with one categorical and one logical feature. -/
def logicalValidator : Validator :=
  [("Color", FeatureInfo.mk "categorical" ["White", "Black"] 0 0),
   ("Leather interior", FeatureInfo.mk "logical" [] 0 0)]

/-- A single-row dataframe over `logicalValidator` with an unobjectionable
value in every column. -/
def logicalDF : DF :=
  DF.mk ["Color", "Leather interior"]
    [[("Color", Value.str "White"), ("Leather interior", Value.bool true)]]

/-- Raw row with a turbo engine-volume text and a well-formed mileage text. -/
def mileTurboDF : DF :=
  DF.mk ["Mileage", "Engine volume"]
    [[("Mileage", Value.str "120000 km"), ("Engine volume", Value.str "2.0 Turbo")]]

/-- Raw row with a plain engine-volume text. -/
def milePlainDF : DF :=
  DF.mk ["Mileage", "Engine volume"]
    [[("Mileage", Value.str "120000 km"), ("Engine volume", Value.str "1.6")]]

/-- Raw row with a malformed mileage text. -/
def mileBadDF : DF :=
  DF.mk ["Mileage", "Engine volume"]
    [[("Mileage", Value.str "abc km"), ("Engine volume", Value.str "1.6")]]

/-- A one-row dataframe whose engine volume is already a float. -/
def evFloatDF : DF := DF.mk ["Engine volume"] [[("Engine volume", Value.float 3)]]

/-- A five-row, one-column dataframe for the split witness. -/
def splitWitDF : DF :=
  DF.mk ["x"]
    [[("x", Value.int 1)], [("x", Value.int 2)], [("x", Value.int 3)],
     [("x", Value.int 4)], [("x", Value.int 5)]]

/-- A one-row dataframe (too small to split). -/
def oneRowSplitDF : DF := DF.mk ["x"] [[("x", Value.int 1)]]

/-! ## Helper lemmas -/

theorem ok_bind {ε α β : Type} (b : α) (g : α → Except ε β) :
    (Except.ok b >>= g) = g b := rfl

theorem error_bind {ε α β : Type} (e : ε) (g : α → Except ε β) :
    ((Except.error e : Except ε α) >>= g) = Except.error e := rfl

theorem mapM_ok_length {ε α β : Type} (f : α → Except ε β) :
    ∀ (l : List α) (l2 : List β), l.mapM f = Except.ok l2 → l2.length = l.length := by
  intro l
  induction l with
  | nil =>
    intro l2 h
    rw [List.mapM_nil] at h
    cases h
    rfl
  | cons a t ih =>
    intro l2 h
    rw [List.mapM_cons] at h
    cases hfa : f a with
    | error e => rw [hfa, error_bind] at h; cases h
    | ok b =>
      rw [hfa, ok_bind] at h
      cases hmt : List.mapM f t with
      | error e => rw [hmt, error_bind] at h; cases h
      | ok bs =>
        rw [hmt, ok_bind] at h
        cases h
        simp [ih bs hmt]

theorem contains_of_mem {a : String} {l : List String} (h : a ∈ l) :
    l.contains a = true := by
  simpa [List.contains] using List.elem_iff.2 h

theorem mem_of_contains {a : String} {l : List String} (h : l.contains a = true) :
    a ∈ l := by
  simpa [List.contains] using List.elem_iff.1 (by simpa [List.contains] using h)

theorem getCol_ok_length {df : DF} {f : String} {vals : List Value}
    (h : getCol df f = Except.ok vals) : vals.length = df.rows.length := by
  unfold getCol at h
  split at h
  · exact mapM_ok_length _ _ _ h
  · cases h

theorem setCol_rows_length (df : DF) (f : String) (vs : List Value) :
    (setCol df f vs).rows.length = df.rows.length := by
  simp [setCol, List.enum_length]

theorem setCol_cols_mem {df : DF} {g : String} (f : String) (vs : List Value)
    (h : g ∈ df.cols) : g ∈ (setCol df f vs).cols := by
  unfold setCol
  dsimp only
  split
  · exact h
  · exact List.mem_append_left _ h

theorem getCol_of_nil_rows {df : DF} {f : String} (hc : f ∈ df.cols)
    (h : df.rows = []) : getCol df f = Except.ok [] := by
  unfold getCol
  rw [contains_of_mem hc, h]
  rfl

theorem setCol_rows_nil {df : DF} (f : String) (vs : List Value)
    (h : df.rows = []) : (setCol df f vs).rows = [] := by
  simp [setCol, h]

/-! ## Claim C1 -/

/-- C1 (code_bug evaluation): on the §8 end-to-end scenario row, inference-mode
preparation does NOT apply the training path's derivation and normalization
steps (in the source, `execute_preparation` runs only `validate_data` when
`is_inference` is set), so the raw text "80000 km" reaches domain validation
of the numerical feature `Mileage` and the comparison with the numeric bounds
raises `TypeError`; the run fails instead of producing the claimed single row
with `isTurbo="Yes"`, `Engine volume=2.5`, `Mileage=80000.0`. -/
theorem claim_C1_scenario_inference_fails :
    execute_preparation VALIDATOR "Price" true scenarioDF =
      Except.error (PrepError.typeError "comparison not supported between str and number") := rfl

/-! ## Claim C2 -/

/-- C2 (counterexample): in `find_outliers_categorical` the mask is
`counts <= min_freq`, so a row whose value's occurrence count equals
`min_freq` IS flagged, contrary to the claim.  In the column
`[a, a, b, b, b]` with `min_freq = 2`, the value "a" occurs exactly twice and
both its rows (positions 0 and 1) are flagged. -/
theorem claim_C2_counterexample :
    find_outliers_categorical catCexDF "c" 2 = Except.ok [0, 1] ∧
    catCexVals.count (Value.str "a") = 2 := ⟨rfl, rfl⟩

/-- A value's membership in the low-frequency value list computed by
`find_outliers_categorical` is exactly the condition `count ≤ min_freq`. -/
theorem mem_lowVals_iff {vals : List Value} {v : Value} (hv : v ∈ vals) (min_freq : Nat) :
    (v ∈ ((value_counts vals).filter (fun p => decide (p.2 ≤ min_freq))).map (fun p => p.1)) ↔
      vals.count v ≤ min_freq := by
  constructor
  · intro h
    obtain ⟨p, hp, hpv⟩ := List.mem_map.1 h
    obtain ⟨hpc, hple⟩ := List.mem_filter.1 hp
    obtain ⟨w, _, hwp⟩ := List.mem_map.1 hpc
    subst hwp
    cases hpv
    simpa using hple
  · intro h
    refine List.mem_map.2 ⟨(v, vals.count v), ?_, rfl⟩
    refine List.mem_filter.2 ⟨?_, by simpa using h⟩
    exact List.mem_map.2 ⟨v, List.mem_dedup.2 hv, rfl⟩

/-- C2 (amended): `find_outliers_categorical` flags exactly the rows whose
value occurs at most `min_freq` times: a count of `min_freq − 1` is flagged
(as the claim says) but so is a count of exactly `min_freq`; only counts
strictly above `min_freq` escape. -/
theorem claim_C2_flags_iff_count_le (df : DF) (feature : String) (min_freq : Nat)
    (vals : List Value) (hg : getCol df feature = Except.ok vals) (hne : vals ≠ []) :
    ∃ idxs, find_outliers_categorical df feature min_freq = Except.ok idxs ∧
      ∀ i, i < vals.length →
        (i ∈ idxs ↔ vals.count (vals.getD i (Value.int 0)) ≤ min_freq) := by
  refine ⟨(List.range vals.length).filter
    (fun i => (((value_counts vals).filter (fun p => decide (p.2 ≤ min_freq))).map
      (fun p => p.1)).contains (vals.getD i (Value.int 0))), ?_, ?_⟩
  · simp only [find_outliers_categorical]
    rw [hg, ok_bind]
    rw [if_neg (fun h0 => hne (List.length_eq_zero.1 h0))]
  · intro i hi
    have hmem : vals.getD i (Value.int 0) ∈ vals := by
      rw [List.getD_eq_getElem vals (Value.int 0) hi]
      exact List.getElem_mem hi
    constructor
    · intro h
      have h2 := (List.mem_filter.1 h).2
      have hvv : vals.getD i (Value.int 0) ∈
          ((value_counts vals).filter (fun p => decide (p.2 ≤ min_freq))).map (fun p => p.1) :=
        List.elem_iff.1 h2
      exact (mem_lowVals_iff hmem min_freq).1 hvv
    · intro h
      refine List.mem_filter.2 ⟨List.mem_range.2 hi, ?_⟩
      exact List.elem_iff.2 ((mem_lowVals_iff hmem min_freq).2 h)

/-- Witness for C2: on the column `[x, y, y, y]` with `min_freq = 3` the
characterization applies; position 0 (count 1) and positions 1-3 (count 3)
are all flagged. -/
theorem claim_C2_flags_iff_count_le_witness :
    ∃ idxs, find_outliers_categorical catWitDF "c" 3 = Except.ok idxs ∧
      ∀ i, i < catWitVals.length →
        (i ∈ idxs ↔ catWitVals.count (catWitVals.getD i (Value.int 0)) ≤ 3) :=
  claim_C2_flags_iff_count_le catWitDF "c" 3 catWitVals (by rfl) (by decide)

/-! ## Claim C3 -/

theorem if_lt_eq_max (a b : ℚ) : (if a < b then b else a) = max a b := by
  rcases le_or_lt b a with h | h
  · rw [if_neg (not_lt.2 h), max_eq_left h]
  · rw [if_pos h, max_eq_right h.le]

theorem if_gt_eq_min (a b : ℚ) : (if b < a then b else a) = min a b := by
  rcases le_or_lt a b with h | h
  · rw [if_neg (not_lt.2 h), min_eq_left h]
  · rw [if_pos h, min_eq_right h.le]

/-- C3: on any numeric column, `find_outliers_numeric` returns exactly the
rows whose value lies strictly outside
`[max(Q1 - k*IQR, domain_min), min(Q3 + k*IQR, domain_max)]`, with Q1/Q3 the
25th/75th percentiles rounded to the nearest integer before the IQR is
formed (`numericOutlierSpec` and the two bound functions state this
verbatim); and whenever the clamped interval is non-degenerate, a value
sitting exactly on either clamped bound is not flagged.  The embedding is a
pure function of the column, so the input dataframe is unchanged by
construction. -/
theorem claim_C3_numeric_outliers (df : DF) (feature : String) (k mn mx : ℚ)
    (vals : List Value) (nums : List ℚ)
    (hg : getCol df feature = Except.ok vals)
    (hn : vals.mapM toNumE = Except.ok nums) (hne : nums ≠ []) :
    find_outliers_numeric df feature k mn mx = Except.ok (numericOutlierSpec nums k mn mx)
    ∧ ∀ i, i < nums.length → specLowerBound nums k mn ≤ specUpperBound nums k mx →
        (nums.getD i 0 = specLowerBound nums k mn ∨ nums.getD i 0 = specUpperBound nums k mx) →
        i ∉ numericOutlierSpec nums k mn mx := by
  constructor
  · simp only [find_outliers_numeric]
    rw [hg, ok_bind, hn, ok_bind]
    rw [if_neg (by simp [List.isEmpty_iff, hne])]
    simp only [if_lt_eq_max, if_gt_eq_min]
    rfl
  · intro i hi hlh hbound hmem
    have h2 := (List.mem_filter.1 hmem).2
    rw [Bool.or_eq_true, decide_eq_true_eq, decide_eq_true_eq] at h2
    rcases hbound with hb | hb <;> rw [hb] at h2 <;> rcases h2 with h2 | h2
    · exact lt_irrefl _ h2
    · exact absurd h2 (not_lt.2 hlh)
    · exact absurd h2 (not_lt.2 hlh)
    · exact lt_irrefl _ h2

/-- Witness for C3: the characterization applied to a concrete eight-value
column with multiplier 3/2 and domain [0, 100]. -/
theorem claim_C3_numeric_outliers_witness :
    find_outliers_numeric numWitDF "n" (3/2) 0 100 =
      Except.ok (numericOutlierSpec numWitVals (3/2) 0 100)
    ∧ ∀ i, i < numWitVals.length →
        specLowerBound numWitVals (3/2) 0 ≤ specUpperBound numWitVals (3/2) 100 →
        (numWitVals.getD i 0 = specLowerBound numWitVals (3/2) 0 ∨
          numWitVals.getD i 0 = specUpperBound numWitVals (3/2) 100) →
        i ∉ numericOutlierSpec numWitVals (3/2) 0 100 :=
  claim_C3_numeric_outliers numWitDF "n" (3/2) 0 100
    (numWitVals.map Value.float) numWitVals (by rfl) (by rfl) (by decide)

/-! ## Claim C4 -/

theorem pure_bind_ex {ε α β : Type} (a : α) (g : α → Except ε β) :
    ((pure a : Except ε α) >>= g) = g a := rfl

theorem bind_ok_inv {ε α β : Type} {x : Except ε α} {g : α → Except ε β} {b : β}
    (h : (x >>= g) = Except.ok b) : ∃ a, x = Except.ok a ∧ g a = Except.ok b := by
  cases x with
  | error e => rw [error_bind] at h; cases h
  | ok a => exact ⟨a, rfl, by rwa [ok_bind] at h⟩

theorem validate_ok_length {validator : Validator} {df : DF}
    (h : validate_data validator true df = Except.ok ()) : df.rows.length = 1 := by
  by_cases h1 : df.rows.length = 1
  · exact h1
  · exfalso
    unfold validate_data at h
    rw [if_pos (by simp [h1])] at h
    cases h

theorem select_ok_length {validator : Validator} {target : String} {infer : Bool}
    {df d2 : DF} (h : select_features validator target infer df = Except.ok d2) :
    d2.rows.length = df.rows.length := by
  unfold select_features at h
  dsimp only at h
  split at h <;> split at h <;>
    first
      | cases h
      | (obtain ⟨rows, hm, h2⟩ := bind_ok_inv h
         cases h2
         exact mapM_ok_length _ _ _ hm)

theorem coerceColFloat_ok_length {df : DF} {f : String} {d2 : DF}
    (h : coerceColFloat df f = Except.ok d2) : d2.rows.length = df.rows.length := by
  unfold coerceColFloat at h
  obtain ⟨vals, _, h2⟩ := bind_ok_inv h
  obtain ⟨vals2, _, h3⟩ := bind_ok_inv h2
  cases h3
  exact setCol_rows_length df f vals2

theorem coerceColStr_ok_length {df : DF} {f : String} {d2 : DF}
    (h : coerceColStr df f = Except.ok d2) : d2.rows.length = df.rows.length := by
  unfold coerceColStr at h
  obtain ⟨vals, _, h2⟩ := bind_ok_inv h
  cases h2
  exact setCol_rows_length df f _

theorem foldlM_len {g : DF → String → Except PrepError DF}
    (hg : ∀ d f d2, g d f = Except.ok d2 → d2.rows.length = d.rows.length) :
    ∀ (fs : List String) (d d2 : DF),
      List.foldlM g d fs = Except.ok d2 → d2.rows.length = d.rows.length := by
  intro fs
  induction fs with
  | nil =>
    intro d d2 h
    rw [List.foldlM_nil] at h
    cases h
    rfl
  | cons a t ih =>
    intro d d2 h
    rw [List.foldlM_cons] at h
    obtain ⟨d1, h1, h2⟩ := bind_ok_inv h
    rw [ih d1 d2 h2, hg d a d1 h1]

theorem set_types_ok_length {validator : Validator} {target : String} {infer : Bool}
    {df d2 : DF} (h : set_types validator target infer df = Except.ok d2) :
    d2.rows.length = df.rows.length := by
  unfold set_types at h
  obtain ⟨dN, hN, h2⟩ := bind_ok_inv h
  obtain ⟨dC, hC, h3⟩ := bind_ok_inv h2
  obtain ⟨dL, hL, h4⟩ := bind_ok_inv h3
  cases h4
  have lN := foldlM_len (fun d f d2 hh => by
    split at hh
    · cases hh; rfl
    · exact coerceColFloat_ok_length hh) _ _ _ hN
  have lC := foldlM_len (fun d f d2 hh => coerceColStr_ok_length hh) _ _ _ hC
  have lL := foldlM_len (fun d f d2 hh => coerceColStr_ok_length hh) _ _ _ hL
  rw [lL, lC, lN]

/-- C4 (counterexample): a zero-row training-mode preparation does not fail
with the structural one-row/empty-input `ValueError` the spec's
`PreparationError` stands for; it crashes with `ZeroDivisionError` inside the
outlier-percentage diagnostic of the first categorical cleaning step. -/
theorem claim_C4_counterexample :
    execute_preparation VALIDATOR "Price" false emptyTrainDF =
      Except.error PrepError.zeroDivision := rfl

/-- C4 (amended): the inference-mode structural row-count check exists and
gives the exactly-one-row guarantee — an inference run on a dataframe with
any row count other than one fails with the structural `ValueError`
(the spec's `PreparationError`), and an inference run that succeeds returns
exactly one row.  The zero-row case in training mode, however, is not caught
structurally: it crashes with an internal `ZeroDivisionError` inside the
first categorical outlier step. -/
theorem claim_C4_row_count :
    (∀ (validator : Validator) (target : String) (df : DF), df.rows.length ≠ 1 →
      execute_preparation validator target true df =
        Except.error (PrepError.valueError oneRowMsg))
    ∧ (∀ (validator : Validator) (target : String) (df df2 : DF),
        execute_preparation validator target true df = Except.ok df2 →
        df2.rows.length = 1)
    ∧ (∀ (validator : Validator) (target : String) (df : DF), df.rows = [] →
        "Engine volume" ∈ df.cols → "Mileage" ∈ df.cols → "Manufacturer" ∈ df.cols →
        execute_preparation validator target false df =
          Except.error PrepError.zeroDivision) := by
  refine ⟨?_, ?_, ?_⟩
  · intro validator target df h
    have hv : validate_data validator true df = Except.error (PrepError.valueError oneRowMsg) := by
      unfold validate_data
      rw [if_pos (by simp [h])]
    simp [execute_preparation, hv, error_bind]
  · intro validator target df df2 h
    simp only [execute_preparation] at h
    rw [if_pos trivial] at h
    obtain ⟨u, hval, h2⟩ := bind_ok_inv h
    cases u
    rw [ok_bind] at h2
    obtain ⟨dsel, hsel, hst⟩ := bind_ok_inv h2
    rw [set_types_ok_length hst, select_ok_length hsel]
    exact validate_ok_length hval
  · intro validator target df hnil hEV hMil hMan
    have h1 : add_features df = Except.ok (setCol df "isTurbo" []) := by
      unfold add_features
      rw [getCol_of_nil_rows hEV hnil, ok_bind, List.mapM_nil, pure_bind_ex]
    have hAnil : (setCol df "isTurbo" []).rows = [] := setCol_rows_nil _ _ hnil
    have hAMil : "Mileage" ∈ (setCol df "isTurbo" []).cols := setCol_cols_mem _ _ hMil
    have hAEV : "Engine volume" ∈ (setCol df "isTurbo" []).cols := setCol_cols_mem _ _ hEV
    have hAMan : "Manufacturer" ∈ (setCol df "isTurbo" []).cols := setCol_cols_mem _ _ hMan
    set dfA := setCol df "isTurbo" [] with hdfA
    have hBnil : (setCol dfA "Mileage" []).rows = [] := setCol_rows_nil _ _ hAnil
    have hBEV : "Engine volume" ∈ (setCol dfA "Mileage" []).cols := setCol_cols_mem _ _ hAEV
    have h2 : preprocess dfA =
        Except.ok (setCol (setCol dfA "Mileage" []) "Engine volume" []) := by
      unfold preprocess
      rw [getCol_of_nil_rows hAMil hAnil, ok_bind, List.mapM_nil, pure_bind_ex]
      dsimp only
      rw [getCol_of_nil_rows hBEV hBnil, ok_bind, List.mapM_nil, pure_bind_ex]
    set dfB := setCol (setCol dfA "Mileage" []) "Engine volume" [] with hdfB
    have hCnil : dfB.rows = [] := setCol_rows_nil _ _ hBnil
    have hCMan : "Manufacturer" ∈ dfB.cols :=
      setCol_cols_mem _ _ (setCol_cols_mem _ _ hAMan)
    have h3 : find_outliers_categorical dfB "Manufacturer" MIN_FREQ_MAKE =
        Except.error PrepError.zeroDivision := by
      unfold find_outliers_categorical
      rw [getCol_of_nil_rows hCMan hCnil, ok_bind]
      rfl
    have h4 : clean_data validator dfB = Except.error PrepError.zeroDivision := by
      unfold clean_data cleanStepCat
      rw [h3, error_bind, error_bind]
    simp only [execute_preparation]
    rw [if_neg (by simp)]
    rw [h1, ok_bind, h2, ok_bind, h4, error_bind]

/-- Witness for C4: the two-row scenario input fails the structural check; a
succeeding single-feature inference run returns one row; the rowless raw
training dataframe hits the division by zero. -/
theorem claim_C4_row_count_witness :
    execute_preparation VALIDATOR "Price" true twoRowDF =
      Except.error (PrepError.valueError oneRowMsg)
    ∧ tinyDF.rows.length = 1
    ∧ execute_preparation VALIDATOR "Price" false emptyTrainDF =
      Except.error PrepError.zeroDivision :=
  ⟨claim_C4_row_count.1 VALIDATOR "Price" twoRowDF (by decide),
   claim_C4_row_count.2.1 tinyValidator "Price" tinyDF tinyDF (by rfl),
   claim_C4_row_count.2.2 VALIDATOR "Price" emptyTrainDF rfl (by decide) (by decide) (by decide)⟩

/-! ## Claim C7 -/

/-- C7: feature derivation plus normalization strips " km" from the mileage
text and parses the rest as an integer ("120000 km" becomes the integer
120000), strips " Turbo" from the engine-volume text and parses the rest as a
float ("2.0 Turbo" becomes 2.0 with isTurbo "Yes"; "1.6" becomes 1.6 with
isTurbo "No"), and fails with a `ValueError` when the remaining text does not
parse ("abc km"). -/
theorem claim_C7_normalization :
    (add_features mileTurboDF >>= preprocess) =
      Except.ok (DF.mk ["Mileage", "Engine volume", "isTurbo"]
        [[("Mileage", Value.int 120000), ("Engine volume", Value.float 2),
          ("isTurbo", Value.str "Yes")]]) ∧
    (add_features milePlainDF >>= preprocess) =
      Except.ok (DF.mk ["Mileage", "Engine volume", "isTurbo"]
        [[("Mileage", Value.int 120000), ("Engine volume", Value.float (8/5)),
          ("isTurbo", Value.str "No")]]) ∧
    (add_features mileBadDF >>= preprocess) =
      Except.error (PrepError.valueError "invalid literal for int with base 10: abc") :=
  ⟨by with_unfolding_all rfl, by with_unfolding_all rfl, by with_unfolding_all rfl⟩

/-! ## Claim C5 -/

theorem validateCols_ok_iff (validator : Validator) (r0 : Row) :
    ∀ (cols : List String),
      (∀ f ∈ cols, ∃ v b, lookupV r0 f = some v ∧
        validate_feature_value validator f v = Except.ok b) →
      (validateCols validator r0 cols = Except.ok () ↔
        ∀ f v, f ∈ cols → lookupV r0 f = some v →
          validate_feature_value validator f v = Except.ok true) := by
  intro cols
  induction cols with
  | nil =>
    intro _
    simp [validateCols]
  | cons g rest ih =>
    intro hyp
    obtain ⟨v, b, hv, hb⟩ := hyp g (List.mem_cons_self g rest)
    have ihr := ih (fun f hf => hyp f (List.mem_cons_of_mem g hf))
    cases b
    · constructor
      · intro h
        exfalso
        simp only [validateCols, hv, hb] at h
        cases h
      · intro h
        exfalso
        have := h g v (List.mem_cons_self g rest) hv
        rw [hb] at this
        cases this
    · constructor
      · intro h
        simp only [validateCols, hv, hb, if_true] at h
        intro f w hf hw
        rcases List.mem_cons.1 hf with hEq | hmem
        · subst hEq
          rw [hv] at hw
          cases hw
          exact hb
        · exact ihr.1 h f w hmem hw
      · intro h
        simp only [validateCols, hv, hb, if_true]
        exact ihr.2 (fun f w hf hw => h f w (List.mem_cons_of_mem g hf) hw)

theorem validateCols_firstInvalid (validator : Validator) (r0 : Row) :
    ∀ (cols : List String) (f : String) (v : Value),
      firstInvalid validator r0 cols = some (f, v) →
      validateCols validator r0 cols =
        Except.error (PrepError.valueError (invalidValueMsg f v)) := by
  intro cols
  induction cols with
  | nil => intro f v h; cases h
  | cons g rest ih =>
    intro f v h
    cases hl : lookupV r0 g with
    | none => rw [firstInvalid, hl] at h; cases h
    | some w =>
      cases hw : validate_feature_value validator g w with
      | error e =>
        rw [firstInvalid, hl] at h
        simp only [hw] at h
        cases h
      | ok b =>
        cases b
        · rw [firstInvalid, hl] at h
          simp only [hw] at h
          cases h
          simp [validateCols, hl, hw]
        · rw [firstInvalid, hl] at h
          simp only [hw] at h
          simp only [validateCols, hl, hw, if_true]
          exact ih f v h

/-- With exactly one row, `validate_data` equals the per-column loop over the
first row, whatever the columns are. -/
theorem validate_data_single (validator : Validator) (df : DF) (r0 : Row)
    (hrows : df.rows = [r0]) :
    validate_data validator true df = validateCols validator r0 df.cols := by
  unfold validate_data
  rw [hrows]
  cases hc : df.cols
  · rfl
  · rfl

/-- C5: with one row whose every column has a value the schema can judge
without raising, inference validation (i) succeeds iff every column's value
satisfies its schema domain, (ii) fails with the `ValueError` naming exactly
the first offending feature and its value (eager, first violation only), and
the judgement itself is (iii) membership in `allowed_values` for categorical
entries and (iv) `min ≤ value ≤ max` for numerical entries. -/
theorem claim_C5_validation (validator : Validator) (df : DF) (r0 : Row)
    (hrows : df.rows = [r0])
    (hv : ∀ f ∈ df.cols, ∃ v b, lookupV r0 f = some v ∧
      validate_feature_value validator f v = Except.ok b) :
    (validate_data validator true df = Except.ok () ↔
      ∀ f v, f ∈ df.cols → lookupV r0 f = some v →
        validate_feature_value validator f v = Except.ok true)
    ∧ (∀ f v, firstInvalid validator r0 df.cols = some (f, v) →
        validate_data validator true df =
          Except.error (PrepError.valueError (invalidValueMsg f v)))
    ∧ (∀ f v info, List.lookup f validator = some info → info.type = "categorical" →
        validate_feature_value validator f v = Except.ok (pyMemStr v info.values))
    ∧ (∀ f v info q, List.lookup f validator = some info → info.type = "numerical" →
        Value.toNum v = some q →
        validate_feature_value validator f v =
          Except.ok (decide (info.min ≤ q) && decide (q ≤ info.max))) := by
  refine ⟨?_, ?_, ?_, ?_⟩
  · rw [validate_data_single validator df r0 hrows]
    exact validateCols_ok_iff validator r0 df.cols hv
  · intro f v h
    rw [validate_data_single validator df r0 hrows]
    exact validateCols_firstInvalid validator r0 df.cols f v h
  · intro f v info hl ht
    simp only [validate_feature_value, hl]
    rw [if_pos ht]
  · intro f v info q hl ht hq
    simp only [validate_feature_value, hl, hq]
    rw [if_neg (by rw [ht]; decide), if_pos ht]

/-- Witness for C5: validating the single row with the out-of-domain
`Color = "Green"` value fails naming `Color` and the value. -/
theorem claim_C5_validation_witness :
    validate_data tinyValidator true tinyBadDF =
      Except.error (PrepError.valueError (invalidValueMsg "Color" (Value.str "Green"))) :=
  (claim_C5_validation tinyValidator tinyBadDF [("Color", Value.str "Green")] rfl
    (by
      intro f hf
      have hfc : f = "Color" := by simpa [tinyBadDF] using hf
      subst hfc
      exact ⟨Value.str "Green", false, rfl, rfl⟩)).2.1 "Color" (Value.str "Green") rfl

/-! ## Claim C6 -/

theorem dropRows_rows_sublist (df : DF) (idxs : List Nat) :
    (dropRows df idxs).rows.Sublist df.rows := by
  have h1 := List.Sublist.map (fun p => p.2)
    (List.filter_sublist (p := fun p => !(idxs.contains p.1)) df.rows.enum)
  have h2 : df.rows.enum.map (fun p => p.2) = df.rows := List.enum_map_snd df.rows
  rw [h2] at h1
  exact h1

theorem applyStep_ok_sublist {validator : Validator} {s : OutlierStep} {df d2 : DF}
    (h : applyStep validator df s = Except.ok d2) : d2.rows.Sublist df.rows := by
  cases s with
  | cat f m =>
    unfold applyStep cleanStepCat at h
    obtain ⟨idxs, _, h2⟩ := bind_ok_inv h
    cases h2
    exact dropRows_rows_sublist df idxs
  | num f k =>
    unfold applyStep cleanStepNum at h
    dsimp only at h
    cases hl : List.lookup f validator with
    | none => rw [hl] at h; cases h
    | some info =>
      rw [hl] at h
      obtain ⟨idxs, _, h2⟩ := bind_ok_inv h
      cases h2
      exact dropRows_rows_sublist df idxs

theorem foldlM_steps_sublist {validator : Validator} :
    ∀ (steps : List OutlierStep) (d d2 : DF),
      List.foldlM (applyStep validator) d steps = Except.ok d2 →
      d2.rows.Sublist d.rows := by
  intro steps
  induction steps with
  | nil =>
    intro d d2 h
    rw [List.foldlM_nil] at h
    cases h
    exact List.Sublist.refl _
  | cons a t ih =>
    intro d d2 h
    rw [List.foldlM_cons] at h
    obtain ⟨d1, h1, h2⟩ := bind_ok_inv h
    exact (ih d1 d2 h2).trans (applyStep_ok_sublist h1)

/-- C6: training-mode cleaning is exactly the left fold of the spec's §4.3
ordered parameter table — manufacturer (min-frequency 5), model (3),
production-year (IQR multiplier 7), body-category (10), mileage (3), price
(7.5) — each step dropping its flagged rows before the next step runs; and
any successful cleaning returns a sublist of the input rows, so a row removed
by an earlier feature is never seen by a later one. -/
theorem claim_C6_clean_order (validator : Validator) (df : DF) :
    clean_data validator df = cleanSteps.foldlM (applyStep validator) df
    ∧ ∀ df2, clean_data validator df = Except.ok df2 → df2.rows.Sublist df.rows := by
  have e : clean_data validator df = cleanSteps.foldlM (applyStep validator) df := rfl
  refine ⟨e, ?_⟩
  intro df2 h
  rw [e] at h
  exact foldlM_steps_sublist cleanSteps df df2 h

/-- Witness for C6: a 12-row dataframe whose values are all frequent inliers
is cleaned successfully and the (full) output rows are a sublist of the
input. -/
theorem claim_C6_clean_order_witness :
    clean_data VALIDATOR cleanWitDF = Except.ok cleanWitDF
    ∧ cleanWitDF.rows.Sublist cleanWitDF.rows :=
  ⟨by with_unfolding_all rfl,
   (claim_C6_clean_order VALIDATOR cleanWitDF).2 cleanWitDF (by with_unfolding_all rfl)⟩

/-! ## Claim C9 -/

theorem mapM_lookup_ok (f : String) :
    ∀ (rows : List Row), (∀ r ∈ rows, ∃ v, lookupV r f = some v) →
      ∃ vals, rows.mapM (fun r =>
        match lookupV r f with
        | some v => Except.ok v
        | none => Except.error (PrepError.keyError f)) = Except.ok vals := by
  intro rows
  induction rows with
  | nil =>
    intro _
    refine ⟨[], ?_⟩
    rw [List.mapM_nil]
    rfl
  | cons a t ih =>
    intro h
    obtain ⟨v, hv⟩ := h a (List.mem_cons_self a t)
    obtain ⟨vals, hvals⟩ := ih (fun r hr => h r (List.mem_cons_of_mem a hr))
    refine ⟨v :: vals, ?_⟩
    rw [List.mapM_cons]
    simp only [hv, hvals, ok_bind]
    rfl

/-- C9 (amended): training-mode re-preparation of already-prepared, typed
data is not a no-op; as soon as the engine-volume column holds a float (the
type the pipeline itself produced), `add_features` re-runs the "Turbo"
containment test on it and the run fails with `TypeError` instead of leaving
the values unchanged. -/
theorem claim_C9_not_idempotent (validator : Validator) (target : String) (df : DF)
    (r0 : Row) (t : List Row) (q : ℚ)
    (hrows : df.rows = r0 :: t)
    (hc : "Engine volume" ∈ df.cols)
    (h0 : lookupV r0 "Engine volume" = some (Value.float q))
    (hall : ∀ r ∈ t, ∃ v, lookupV r "Engine volume" = some v) :
    execute_preparation validator target false df =
      Except.error (PrepError.typeError "argument is not iterable") := by
  obtain ⟨vals, hvals⟩ := mapM_lookup_ok "Engine volume" t hall
  have hg : getCol df "Engine volume" = Except.ok (Value.float q :: vals) := by
    unfold getCol
    rw [contains_of_mem hc, hrows, List.mapM_cons]
    simp only [h0, hvals, ok_bind]
    rfl
  have ha : add_features df = Except.error (PrepError.typeError "argument is not iterable") := by
    unfold add_features
    rw [hg, ok_bind, List.mapM_cons]
    rfl
  simp only [execute_preparation]
  rw [if_neg (by simp), ha, error_bind]

/-- Witness for C9: a one-row dataframe whose engine volume is already the
float 3.0 makes training-mode preparation fail with the `TypeError`. -/
theorem claim_C9_not_idempotent_witness :
    execute_preparation VALIDATOR "Price" false evFloatDF =
      Except.error (PrepError.typeError "argument is not iterable") :=
  claim_C9_not_idempotent VALIDATOR "Price" evFloatDF
    [("Engine volume", Value.float 3)] [] 3 rfl (by decide) rfl
    (fun r hr => absurd hr (List.not_mem_nil r))

/-- C9 (counterexample): training-mode preparation on a one-row subset of the
pipeline's own prepared, fully typed output is not a no-op: `add_features`
re-runs the "Turbo" containment test on the already-float engine volume and
Python's `in` raises `TypeError`. -/
theorem claim_C9_counterexample :
    execute_preparation VALIDATOR "Price" false preparedDF =
      Except.error (PrepError.typeError "argument is not iterable") := rfl

/-! ## Claim C8 -/

theorem shuffleGo_succ_cons (fuel s x : Nat) (t : List Nat) :
    shuffleGo (fuel + 1) s (x :: t) =
      (x :: t).getD (s % (x :: t).length) 0 ::
        shuffleGo fuel (lcgNext s) ((x :: t).erase ((x :: t).getD (s % (x :: t).length) 0)) :=
  rfl

theorem shuffleGo_perm : ∀ (fuel s : Nat) (xs : List Nat), xs.length ≤ fuel →
    (shuffleGo fuel s xs).Perm xs := by
  intro fuel
  induction fuel with
  | zero =>
    intro s xs h
    have hx : xs = [] := List.length_eq_zero.1 (Nat.le_zero.1 h)
    subst hx
    exact List.Perm.refl _
  | succ fuel ih =>
    intro s xs h
    cases xs with
    | nil => exact List.Perm.refl _
    | cons x t =>
      have hlt : s % (x :: t).length < (x :: t).length := Nat.mod_lt _ (by simp)
      have hmem : (x :: t).getD (s % (x :: t).length) 0 ∈ x :: t := by
        rw [List.getD_eq_getElem _ _ hlt]
        exact List.getElem_mem hlt
      have hlen : ((x :: t).erase ((x :: t).getD (s % (x :: t).length) 0)).length ≤ fuel := by
        rw [List.length_erase_of_mem hmem]
        exact Nat.le_of_succ_le_succ h
      rw [shuffleGo_succ_cons]
      exact List.Perm.trans
        (List.Perm.cons _ (ih (lcgNext s) _ hlen))
        (List.perm_cons_erase hmem).symm

theorem map_getD_range {α : Type} (l : List α) (d : α) :
    (List.range l.length).map (fun i => l.getD i d) = l := by
  induction l with
  | nil => rfl
  | cons a t ih =>
    rw [show (a :: t).length = t.length + 1 from rfl, List.range_succ_eq_map]
    simp only [List.map_cons, List.map_map]
    rw [show ((fun i => (a :: t).getD i d) ∘ Nat.succ) = (fun i => t.getD i d) from rfl]
    rw [show (a :: t).getD 0 d = a from rfl, ih]

theorem splitIndices_spec (seed n nt : Nat) :
    ((splitIndices seed n nt).1 ++ (splitIndices seed n nt).2).Perm (List.range n)
    ∧ (splitIndices seed n nt).1.Disjoint (splitIndices seed n nt).2 := by
  have hperm : (shuffleIdx seed (List.range n)).Perm (List.range n) :=
    shuffleGo_perm _ seed _ (Nat.le_refl _)
  constructor
  · simpa [splitIndices, List.take_append_drop] using hperm
  · have hnodup : (shuffleIdx seed (List.range n)).Nodup :=
      hperm.nodup_iff.2 (List.nodup_range n)
    rw [← List.take_append_drop nt (shuffleIdx seed (List.range n))] at hnodup
    exact List.disjoint_of_nodup_append hnodup

/-- C8 (spec-modelled split): for every dataframe with at least 2 rows and
every test fraction in (0,1), the split succeeds and its two parts are built
from disjoint index sets that together permute `0..n-1`, so the test rows
followed by the train rows are a permutation of the original rows (each
original row appearing exactly once); the fraction outside (0,1) and the
fewer-than-2-rows cases each fail with the `ValueError`.  Determinism for a
fixed seed and input order holds by construction: the embedding is a pure
function of `(df, test_size, seed)`. -/
theorem claim_C8_split :
    (∀ (df : DF) (ts : ℚ) (seed : Nat), 0 < ts → ts < 1 → 2 ≤ df.rows.length →
      ∃ tr te, train_test_split df ts seed = Except.ok (tr, te)
        ∧ (te.rows ++ tr.rows).Perm df.rows
        ∧ tr.cols = df.cols ∧ te.cols = df.cols)
    ∧ (∀ (seed n nt : Nat),
        ((splitIndices seed n nt).1 ++ (splitIndices seed n nt).2).Perm (List.range n)
        ∧ (splitIndices seed n nt).1.Disjoint (splitIndices seed n nt).2)
    ∧ (∀ (df : DF) (ts : ℚ) (seed : Nat), ts ≤ 0 ∨ 1 ≤ ts →
        train_test_split df ts seed =
          Except.error (PrepError.valueError "test_size should be in the (0, 1) range"))
    ∧ (∀ (df : DF) (ts : ℚ) (seed : Nat), 0 < ts → ts < 1 → df.rows.length < 2 →
        train_test_split df ts seed =
          Except.error
            (PrepError.valueError "the dataset must contain at least 2 rows to be split")) := by
  refine ⟨?_, splitIndices_spec, ?_, ?_⟩
  · intro df ts seed h1 h2 hlen
    unfold train_test_split
    rw [if_neg (not_or.2 ⟨not_le.2 h1, not_le.2 h2⟩), if_neg (not_lt.2 hlen)]
    dsimp only
    refine ⟨_, _, rfl, ?_, rfl, rfl⟩
    rw [← List.map_append]
    have hp := (splitIndices_spec seed df.rows.length
      (min (df.rows.length - 1) (max 1 (⌈ts * (df.rows.length : ℚ)⌉.toNat)))).1
    have := hp.map (fun i => df.rows.getD i [])
    rwa [map_getD_range df.rows []] at this
  · intro df ts seed h
    unfold train_test_split
    rw [if_pos h]
  · intro df ts seed h1 h2 h3
    unfold train_test_split
    rw [if_neg (not_or.2 ⟨not_le.2 h1, not_le.2 h2⟩), if_pos h3]

/-- Witness for C8: the five-row dataframe splits with fraction 1/5 into a
permutation partition; fraction 3/2 and the one-row dataframe fail. -/
theorem claim_C8_split_witness :
    (∃ tr te, train_test_split splitWitDF (1/5) 21 = Except.ok (tr, te)
      ∧ (te.rows ++ tr.rows).Perm splitWitDF.rows
      ∧ tr.cols = splitWitDF.cols ∧ te.cols = splitWitDF.cols)
    ∧ (((splitIndices 21 5 1).1 ++ (splitIndices 21 5 1).2).Perm (List.range 5)
      ∧ (splitIndices 21 5 1).1.Disjoint (splitIndices 21 5 1).2)
    ∧ train_test_split splitWitDF (3/2) 21 =
        Except.error (PrepError.valueError "test_size should be in the (0, 1) range")
    ∧ train_test_split oneRowSplitDF (1/5) 21 =
        Except.error
          (PrepError.valueError "the dataset must contain at least 2 rows to be split") :=
  ⟨claim_C8_split.1 splitWitDF (1/5) 21 (by norm_num) (by norm_num) (by decide),
   claim_C8_split.2.1 21 5 1,
   claim_C8_split.2.2.1 splitWitDF (3/2) 21 (Or.inr (by norm_num)),
   claim_C8_split.2.2.2 oneRowSplitDF (1/5) 21 (by norm_num) (by norm_num) (by decide)⟩

/-! ## Claim C10 -/

theorem validate_feature_value_cases (validator : Validator) (f : String) (v : Value) :
    (∃ b, validate_feature_value validator f v = Except.ok b)
    ∨ (∃ m, validate_feature_value validator f v = Except.error (PrepError.valueError m))
    ∨ (∃ m, validate_feature_value validator f v = Except.error (PrepError.typeError m)) := by
  unfold validate_feature_value
  cases List.lookup f validator with
  | none => exact Or.inr (Or.inl ⟨_, rfl⟩)
  | some info =>
    dsimp only
    by_cases h1 : info.type = "categorical"
    · rw [if_pos h1]
      exact Or.inl ⟨_, rfl⟩
    · rw [if_neg h1]
      by_cases h2 : info.type = "numerical"
      · rw [if_pos h2]
        cases Value.toNum v with
        | none => exact Or.inr (Or.inr ⟨_, rfl⟩)
        | some q => exact Or.inl ⟨_, rfl⟩
      · rw [if_neg h2]
        exact Or.inl ⟨_, rfl⟩

theorem validateCols_invalid_of_mem (validator : Validator) (r0 : Row) :
    ∀ (cols : List String) (f : String) (vf : Value),
      f ∈ cols → lookupV r0 f = some vf →
      validate_feature_value validator f vf = Except.ok false →
      (∀ g ∈ cols, ∃ v, lookupV r0 g = some v) →
      (∀ g v m, g ∈ cols → lookupV r0 g = some v →
        validate_feature_value validator g v ≠ Except.error (PrepError.typeError m)) →
      ∃ msg, validateCols validator r0 cols = Except.error (PrepError.valueError msg) := by
  intro cols
  induction cols with
  | nil => intro f vf hf; exact absurd hf (List.not_mem_nil f)
  | cons g rest ih =>
    intro f vf hf hlf hvf hlook hnte
    obtain ⟨vg, hvg⟩ := hlook g (List.mem_cons_self g rest)
    rcases validate_feature_value_cases validator g vg with ⟨b, hb⟩ | ⟨m, hm⟩ | ⟨m, hm⟩
    · cases b
      · exact ⟨invalidValueMsg g vg, by simp [validateCols, hvg, hb]⟩
      · have hfg : f ≠ g := by
          intro hEq
          subst hEq
          rw [hlf] at hvg
          cases hvg
          rw [hvf] at hb
          cases hb
        have hfrest : f ∈ rest := by
          rcases List.mem_cons.1 hf with h | h
          · exact absurd h hfg
          · exact h
        obtain ⟨msg, hmsg⟩ := ih f vf hfrest hlf hvf
          (fun g2 hg2 => hlook g2 (List.mem_cons_of_mem _ hg2))
          (fun g2 v2 m2 hg2 hl2 => hnte g2 v2 m2 (List.mem_cons_of_mem _ hg2) hl2)
        exact ⟨msg, by simp only [validateCols, hvg, hb, if_true]; exact hmsg⟩
    · exact ⟨m, by simp [validateCols, hvg, hm]⟩
    · exact absurd hm (hnte g vg m (List.mem_cons_self g rest) hvg)

/-- C10: a schema entry whose type tag is neither "categorical" nor
"numerical" (in particular a `logical` entry) makes `validate_feature_value`
return False for every value whatsoever; consequently inference-mode
validation of any single row whose columns include such a feature (and whose
other values raise no comparison `TypeError`) fails with a `ValueError`. -/
theorem claim_C10_logical_invalid (validator : Validator) (f : String)
    (info : FeatureInfo) (hf : List.lookup f validator = some info)
    (ht1 : info.type ≠ "categorical") (ht2 : info.type ≠ "numerical") :
    (∀ v, validate_feature_value validator f v = Except.ok false)
    ∧ (∀ (df : DF) (r0 : Row), df.rows = [r0] → f ∈ df.cols →
        (∀ g ∈ df.cols, ∃ v, lookupV r0 g = some v) →
        (∀ g v m, g ∈ df.cols → lookupV r0 g = some v →
          validate_feature_value validator g v ≠ Except.error (PrepError.typeError m)) →
        ∃ msg, validate_data validator true df =
          Except.error (PrepError.valueError msg)) := by
  have part1 : ∀ v, validate_feature_value validator f v = Except.ok false := by
    intro v
    simp only [validate_feature_value, hf]
    rw [if_neg ht1, if_neg ht2]
  refine ⟨part1, ?_⟩
  intro df r0 hrows hfmem hlook hnte
  obtain ⟨vf, hvf⟩ := hlook f hfmem
  obtain ⟨msg, hmsg⟩ := validateCols_invalid_of_mem validator r0 df.cols f vf hfmem hvf
    (part1 vf) hlook hnte
  refine ⟨msg, ?_⟩
  rw [validate_data_single validator df r0 hrows]
  exact hmsg

/-- Witness for C10: the schema with the logical `Leather interior` rejects
the single row whose values are all otherwise unobjectionable. -/
theorem claim_C10_logical_invalid_witness :
    ∃ msg, validate_data logicalValidator true logicalDF =
      Except.error (PrepError.valueError msg) := by
  refine (claim_C10_logical_invalid logicalValidator "Leather interior"
    (FeatureInfo.mk "logical" [] 0 0) rfl (by decide) (by decide)).2 logicalDF
    [("Color", Value.str "White"), ("Leather interior", Value.bool true)] rfl
    (by decide) ?_ ?_
  · intro g hg
    have hgc : g = "Color" ∨ g = "Leather interior" := by
      simpa [logicalDF] using hg
    rcases hgc with hEq | hEq
    · subst hEq
      exact ⟨Value.str "White", rfl⟩
    · subst hEq
      exact ⟨Value.bool true, rfl⟩
  · intro g v m hg hl
    have hgc : g = "Color" ∨ g = "Leather interior" := by
      simpa [logicalDF] using hg
    rcases hgc with hEq | hEq <;> subst hEq
    · have hv : v = Value.str "White" := by
        have : some (Value.str "White") = some v := by
          rw [← hl]
          rfl
        cases this
        rfl
      subst hv
      intro hcon
      rw [show validate_feature_value logicalValidator "Color" (Value.str "White") =
        Except.ok true from rfl] at hcon
      cases hcon
    · have hv : v = Value.bool true := by
        have : some (Value.bool true) = some v := by
          rw [← hl]
          rfl
        cases this
        rfl
      subst hv
      intro hcon
      rw [show validate_feature_value logicalValidator "Leather interior" (Value.bool true) =
        Except.ok false from rfl] at hcon
      cases hcon

end CarPricing
